import Mathlib

/-!
Verification of the real-time shim of PortAudio.jl (`deps/src/pa_shim.c`)
against its natural-language specification.

The shim is embedded shallowly:
* `RingBuffer` models the PaUtil single-producer/single-consumer ring buffer
  at the level the shim uses it (available counts, bounded copy-in/copy-out).
  The PaUtil implementation itself (`pa_ringbuffer.c`) is not among the
  repository sources, only its callers; it is modelled from the spec, §4.1.
* `senderr` and `pa_shim_processcb` are translated line by line from
  `pa_shim.c`.  All machine integers involved are non-negative counts
  (ring-buffer availabilities are between 0 and the capacity, `frameCount`
  is an `unsigned long`), so they are modelled as `Nat`.
* Side effects are made explicit: the callback returns the updated buffers,
  the new contents of the output slot, and a trace of the transfer /
  notification / error-send events it performed, in order.
-/

namespace PaShim

/-- The error kinds of `pa_shim_errmsg_t`:
`PA_SHIM_ERRMSG_OVERFLOW`, `PA_SHIM_ERRMSG_UNDERFLOW`,
`PA_SHIM_ERRMSG_ERR_OVERFLOW`. -/
inductive ErrMsg where
  | overflow
  | underflow
  | errOverflow
deriving DecidableEq, Repr

/-- Modelled from the spec (§4.1): the PaUtil ring buffer, whose
implementation (`pa_ringbuffer.c`) is not part of this repository's sources.
`data` is the queue of elements that have been written and not yet read,
oldest first; `capacity` is the fixed element capacity. -/
structure RingBuffer (α : Type) where
  capacity : Nat
  data : List α
deriving DecidableEq, Repr

namespace RingBuffer

/-- Model of `PaUtil_GetRingBufferWriteAvailable`: elements writable without
overwriting unread data. -/
def writeAvailable (rb : RingBuffer α) : Nat :=
  rb.capacity - rb.data.length

/-- Model of `PaUtil_GetRingBufferReadAvailable`: elements ready to be read. -/
def readAvailable (rb : RingBuffer α) : Nat :=
  rb.data.length

/-- Model of `PaUtil_WriteRingBuffer`: copies `min n writeAvailable` elements from
`src` in and returns the updated buffer together with the count actually
written. -/
def write (rb : RingBuffer α) (src : List α) (n : Nat) : RingBuffer α × Nat :=
  let k := min n rb.writeAvailable
  ({ rb with data := rb.data ++ src.take k }, k)

/-- Model of `PaUtil_ReadRingBuffer`: copies `min n readAvailable` elements out and
returns the updated buffer together with the elements read, in order. -/
def read (rb : RingBuffer α) (n : Nat) : RingBuffer α × List α :=
  let k := min n rb.readAvailable
  ({ rb with data := rb.data.drop k }, rb.data.take k)

/-- A freshly created, empty ring buffer of capacity `C`. -/
def empty (C : Nat) : RingBuffer α :=
  ⟨C, []⟩

end RingBuffer

/-- The struct `pa_shim_info_t`: the configuration bundle shared between the host and
the callback.  The notify callback pointer is modelled by whether it is
non-null (`notifycb = true`); the three opaque condition handles carry no
data relevant to the shim's own behaviour, so signalling each of them is
recorded as a distinct trace event instead. -/
structure ShimInfo (α : Type) where
  inputbuf : RingBuffer α
  outputbuf : RingBuffer α
  errorbuf : RingBuffer ErrMsg
  sync : Bool
  notifycb : Bool
deriving DecidableEq, Repr

/-- The observable events of one callback invocation, in program order:
ring-buffer transfers (with the count requested of the ring buffer),
notification signals on the three handles, and `senderr` invocations
(recording the kind the call site requested, before any substitution). -/
inductive Event where
  | wroteInput (n : Nat)
  | notifyInput
  | readOutput (n : Nat)
  | notifyOutput
  | sentErr (msg : ErrMsg)
  | notifyError
deriving DecidableEq, Repr

/-- Whether an event is one of the three notification signals. -/
def Event.isNotify : Event → Bool
  | Event.notifyInput => true
  | Event.notifyOutput => true
  | Event.notifyError => true
  | _ => false

/-- The function `senderr` from `pa_shim.c`: substitute `ERR_OVERFLOW` when fewer than 2
slots remain, write one record (the ring buffer itself caps the write at
its availability), and signal the error handle if the notify callback is
non-null.  Returns the updated state and the events performed. -/
def senderr (info : ShimInfo α) (msg : ErrMsg) : ShimInfo α × List Event :=
  let msg' := if info.errorbuf.writeAvailable < 2 then ErrMsg.errOverflow else msg
  let eb := (info.errorbuf.write [msg'] 1).1
  ({ info with errorbuf := eb },
   Event.sentErr msg :: if info.notifycb then [Event.notifyError] else [])

/-- The transfer counts computed by the callback before it touches any ring
buffer: `nwrite = min(frameCount, inAvail)`, `nread = min(frameCount,
outAvail)`, and, when `sync` is set, both capped to their minimum
(`nread = MIN(nread, nwrite); nwrite = nread`). -/
def shimCounts (frameCount inAvail outAvail : Nat) (sync : Bool) : Nat × Nat :=
  let nwrite := min frameCount inAvail
  let nread := min frameCount outAvail
  if sync then (min nread nwrite, min nread nwrite) else (nwrite, nread)

/-- The constant `paContinue` from the PortAudio API: the callback result requesting
that streaming continue. -/
def paContinue : Int := 0

/-- The result of one invocation of `pa_shim_processcb`: the updated shim
state, the final contents of the output slot, the event trace, the C return
value, and whether the NULL-notify warning was printed to stderr. -/
structure CbResult (α : Type) where
  info : ShimInfo α
  output : List α
  trace : List Event
  ret : Int
  warnedNullCb : Bool
deriving DecidableEq, Repr

/-- The callback `pa_shim_processcb` from `pa_shim.c`, translated statement by
statement.  `input` is the driver's input block, `output` the current
contents of the output slot (byte-for-byte, grouped into frames of
`elementSizeBytes` bytes each, so one list element is one frame), `zero`
the all-zero-bytes frame that `memset(..., 0, ...)` produces.  The `memset`
covers exactly the bytes of frames `nread ..< frameCount`, which at frame
granularity replaces those frames by `zero`. -/
def pa_shim_processcb (zero : α) (info : ShimInfo α) (input : List α)
    (frameCount : Nat) (output : List α) : CbResult α :=
  let nw := (shimCounts frameCount info.inputbuf.writeAvailable
      info.outputbuf.readAvailable info.sync).1
  let nr := (shimCounts frameCount info.inputbuf.writeAvailable
      info.outputbuf.readAvailable info.sync).2
  let info1 := { info with inputbuf := (info.inputbuf.write input nw).1 }
  let t1 := Event.wroteInput nw ::
    if info.notifycb then [Event.notifyInput] else []
  let rd := info1.outputbuf.read nr
  let info2 := { info1 with outputbuf := rd.1 }
  let t2 := Event.readOutput nr ::
    if info.notifycb then [Event.notifyOutput] else []
  let s3 := if nw < frameCount then senderr info2 ErrMsg.overflow
    else (info2, [])
  let s4 := if nr < frameCount then senderr s3.1 ErrMsg.underflow
    else (s3.1, [])
  { info := s4.1
    output := rd.2 ++ List.replicate (frameCount - nr) zero ++
      output.drop frameCount
    trace := t1 ++ t2 ++ s3.2 ++ s4.2
    ret := paContinue
    warnedNullCb := !info.notifycb }

/-- The function `pa_shim_getversion` from `pa_shim.c`. -/
def pa_shim_getversion : Nat := 3

/-- Running the callback with the notify-callback pointer forced to a given
nullness: `runWith true` models a configured NotificationBridge, `runWith
false` a NULL `notifycb` field. -/
def runWith (b : Bool) (zero : α) (info : ShimInfo α) (input : List α)
    (frameCount : Nat) (output : List α) : CbResult α :=
  pa_shim_processcb zero { info with notifycb := b } input frameCount output

/-! ### Concrete states used by witnesses and counterexamples -/

/-- The synchronized-transfer scenario of spec §8: input write-availability
100, output read-availability 50, synchronization enabled, fresh error
channel. -/
def syncScenario : ShimInfo Nat :=
  { inputbuf := ⟨100, []⟩
    outputbuf := ⟨60, List.replicate 50 7⟩
    errorbuf := ⟨8, []⟩
    sync := true
    notifycb := true }

/-- An error channel that is completely full (write-availability 0). -/
def fullErrChannel : ShimInfo Nat :=
  { inputbuf := ⟨1, []⟩
    outputbuf := ⟨1, []⟩
    errorbuf := ⟨1, [ErrMsg.overflow]⟩
    sync := false
    notifycb := true }

/-- An error channel of capacity 2 filled to capacity - 1, so exactly one
slot of headroom remains. -/
def headroomScenario : ShimInfo Nat :=
  { inputbuf := ⟨1, []⟩
    outputbuf := ⟨1, []⟩
    errorbuf := ⟨2, [ErrMsg.overflow]⟩
    sync := false
    notifycb := false }

/-- The underflow scenario of spec §8: output ring buffer empty, ample
room everywhere else. -/
def underflowScenario : ShimInfo Nat :=
  { inputbuf := ⟨300, []⟩
    outputbuf := ⟨4, []⟩
    errorbuf := ⟨4, []⟩
    sync := false
    notifycb := true }

/-- A state in which zero frames can move in either direction: the input
buffer is full and the output buffer is empty. -/
def zeroXferScenario : ShimInfo Nat :=
  { inputbuf := ⟨1, [3]⟩
    outputbuf := ⟨1, []⟩
    errorbuf := ⟨4, []⟩
    sync := false
    notifycb := true }

/-- A small synchronized state: input write-availability 5, output
read-availability 3. -/
def syncSmall : ShimInfo Nat :=
  { inputbuf := ⟨5, []⟩
    outputbuf := ⟨5, [1, 2, 3]⟩
    errorbuf := ⟨4, []⟩
    sync := true
    notifycb := true }

/-! ### Helper lemmas about `senderr` and `pa_shim_processcb` -/

/-- One `senderr` call appends `min 1 writeAvailable` copies of the record
that survives the headroom substitution. -/
lemma senderr_errorbuf_data (info : ShimInfo α) (m : ErrMsg) :
    (senderr info m).1.errorbuf.data =
      info.errorbuf.data ++
        List.replicate (min 1 info.errorbuf.writeAvailable)
          (if info.errorbuf.writeAvailable < 2 then ErrMsg.errOverflow else m) := by
  unfold senderr RingBuffer.write
  rcases h : info.errorbuf.writeAvailable with _ | k
  · simp [h]
  · have h1 : min 1 (k + 1) = 1 := by omega
    simp [h, h1]

/-- With at least two slots free, `senderr` appends exactly the requested
record. -/
lemma senderr_errorbuf_data_of_le (info : ShimInfo α) (m : ErrMsg)
    (h : 2 ≤ info.errorbuf.writeAvailable) :
    (senderr info m).1.errorbuf.data = info.errorbuf.data ++ [m] := by
  rw [senderr_errorbuf_data]
  have h1 : min 1 info.errorbuf.writeAvailable = 1 := by omega
  have h2 : ¬ info.errorbuf.writeAvailable < 2 := by omega
  simp [h1, h2]

/-- `senderr` never changes the error buffer's capacity. -/
lemma senderr_errorbuf_capacity (info : ShimInfo α) (m : ErrMsg) :
    (senderr info m).1.errorbuf.capacity = info.errorbuf.capacity := rfl

/-- Effect of one `senderr` call on the error buffer's write-availability. -/
lemma senderr_writeAvailable (info : ShimInfo α) (m : ErrMsg) :
    (senderr info m).1.errorbuf.writeAvailable =
      info.errorbuf.writeAvailable - min 1 info.errorbuf.writeAvailable := by
  have h := senderr_errorbuf_data info m
  simp only [RingBuffer.writeAvailable, senderr_errorbuf_capacity, h,
    List.length_append, List.length_replicate]
  omega

/-- Two chained `senderr` calls with at least three slots of headroom
append exactly the two requested records, in order. -/
lemma senderr_senderr_errorbuf_data (info : ShimInfo α) (m1 m2 : ErrMsg)
    (h : 3 ≤ info.errorbuf.writeAvailable) :
    (senderr (senderr info m1).1 m2).1.errorbuf.data =
      info.errorbuf.data ++ [m1, m2] := by
  have h1 : 2 ≤ info.errorbuf.writeAvailable := by omega
  have h2 : 2 ≤ (senderr info m1).1.errorbuf.writeAvailable := by
    rw [senderr_writeAvailable]; omega
  rw [senderr_errorbuf_data_of_le _ _ h2, senderr_errorbuf_data_of_le _ _ h1]
  simp

/-- The event trace of one callback invocation, fully expanded. -/
lemma processcb_trace (zero : α) (info : ShimInfo α) (input : List α)
    (frameCount : Nat) (output : List α) :
    (pa_shim_processcb zero info input frameCount output).trace =
      (Event.wroteInput (shimCounts frameCount info.inputbuf.writeAvailable
          info.outputbuf.readAvailable info.sync).1 ::
        (if info.notifycb then [Event.notifyInput] else [])) ++
      (Event.readOutput (shimCounts frameCount info.inputbuf.writeAvailable
          info.outputbuf.readAvailable info.sync).2 ::
        (if info.notifycb then [Event.notifyOutput] else [])) ++
      (if (shimCounts frameCount info.inputbuf.writeAvailable
          info.outputbuf.readAvailable info.sync).1 < frameCount then
        Event.sentErr ErrMsg.overflow ::
          (if info.notifycb then [Event.notifyError] else []) else []) ++
      (if (shimCounts frameCount info.inputbuf.writeAvailable
          info.outputbuf.readAvailable info.sync).2 < frameCount then
        Event.sentErr ErrMsg.underflow ::
          (if info.notifycb then [Event.notifyError] else []) else []) := by
  simp only [pa_shim_processcb, senderr]
  split_ifs <;> simp

/-- The error buffer after one callback invocation: the input/output
transfers do not touch it, so it is the result of the (up to two)
conditional `senderr` calls on the pre-state. -/
lemma processcb_errorbuf (zero : α) (info : ShimInfo α) (input : List α)
    (frameCount : Nat) (output : List α) :
    (pa_shim_processcb zero info input frameCount output).info.errorbuf =
      (if (shimCounts frameCount info.inputbuf.writeAvailable
            info.outputbuf.readAvailable info.sync).2 < frameCount then
        senderr (if (shimCounts frameCount info.inputbuf.writeAvailable
              info.outputbuf.readAvailable info.sync).1 < frameCount then
            senderr info ErrMsg.overflow else (info, [])).1 ErrMsg.underflow
       else (if (shimCounts frameCount info.inputbuf.writeAvailable
              info.outputbuf.readAvailable info.sync).1 < frameCount then
            senderr info ErrMsg.overflow else (info, []))).1.errorbuf := by
  simp only [pa_shim_processcb]
  split_ifs <;> rfl

/-- The input buffer after one callback invocation: the result of the one
`write` of `nwrite` elements; the error sends do not touch it. -/
lemma processcb_inputbuf (zero : α) (info : ShimInfo α) (input : List α)
    (frameCount : Nat) (output : List α) :
    (pa_shim_processcb zero info input frameCount output).info.inputbuf =
      (info.inputbuf.write input (shimCounts frameCount
        info.inputbuf.writeAvailable info.outputbuf.readAvailable
        info.sync).1).1 := by
  simp only [pa_shim_processcb]
  split_ifs <;> rfl

/-- The output buffer after one callback invocation: the result of the one
`read` of `nread` elements; the error sends do not touch it. -/
lemma processcb_outputbuf (zero : α) (info : ShimInfo α) (input : List α)
    (frameCount : Nat) (output : List α) :
    (pa_shim_processcb zero info input frameCount output).info.outputbuf =
      (info.outputbuf.read (shimCounts frameCount
        info.inputbuf.writeAvailable info.outputbuf.readAvailable
        info.sync).2).1 := by
  simp only [pa_shim_processcb]
  split_ifs <;> rfl

/-! ### The claims -/

/-- C9: every invocation of `pa_shim_processcb` — whatever the buffers,
arguments, synchronization flag, or errors reported during the invocation —
returns `paContinue`; it never requests stream termination. -/
theorem C9_always_continue {α : Type} (zero : α) (info : ShimInfo α)
    (input : List α) (frameCount : Nat) (output : List α) :
    (pa_shim_processcb zero info input frameCount output).ret = paContinue := rfl

/-- C2, counterexample: on a completely full error channel
(write-availability 0), `senderr` enqueues nothing — the buffer length is
unchanged, not increased by one — refuting the claim that every send
enqueues exactly one record even at write-availability 0. -/
theorem C2_counterexample :
    fullErrChannel.errorbuf.writeAvailable = 0 ∧
    (senderr fullErrChannel ErrMsg.underflow).1.errorbuf.data.length =
      fullErrChannel.errorbuf.data.length ∧
    ¬ (senderr fullErrChannel ErrMsg.underflow).1.errorbuf.data.length =
      fullErrChannel.errorbuf.data.length + 1 := by
  decide

/-- C2, amended: each `senderr` call enqueues exactly
`min 1 writeAvailable` records — exactly one whenever at least one slot is
free, and nothing at all when the buffer is completely full; the send never
blocks. -/
theorem C2_send_count {α : Type} (info : ShimInfo α) (m : ErrMsg) :
    (senderr info m).1.errorbuf.data.length =
      info.errorbuf.data.length + min 1 info.errorbuf.writeAvailable := by
  rw [senderr_errorbuf_data]
  simp

/-- C5: whenever the error buffer's write-availability is below 2 at the
time of the call, whatever `senderr` enqueues (one record if a slot is
free, none otherwise) is `ErrorChannelOverflow`, not the requested kind. -/
theorem C5_headroom_substitution {α : Type} (info : ShimInfo α) (m : ErrMsg)
    (h : info.errorbuf.writeAvailable < 2) :
    (senderr info m).1.errorbuf.data =
      info.errorbuf.data ++
        List.replicate (min 1 info.errorbuf.writeAvailable)
          ErrMsg.errOverflow := by
  rw [senderr_errorbuf_data]
  simp [h]

/-- C5, witness: an error channel of capacity 2 filled to capacity - 1,
sent one further `Overflow`, stores `ErrorChannelOverflow` instead. -/
theorem C5_headroom_substitution_witness :
    headroomScenario.errorbuf.writeAvailable < 2 ∧
    (senderr headroomScenario ErrMsg.overflow).1.errorbuf.data =
      headroomScenario.errorbuf.data ++
        List.replicate (min 1 headroomScenario.errorbuf.writeAvailable)
          ErrMsg.errOverflow :=
  ⟨by decide, C5_headroom_substitution headroomScenario ErrMsg.overflow (by decide)⟩

/-- C4: in every callback invocation, `senderr` is invoked with the
`Overflow` kind exactly once when `nwrite < frameCount` and not at all
otherwise. -/
theorem C4_overflow_iff {α : Type} (zero : α) (info : ShimInfo α)
    (input : List α) (frameCount : Nat) (output : List α) :
    (pa_shim_processcb zero info input frameCount output).trace.count
        (Event.sentErr ErrMsg.overflow) =
      if (shimCounts frameCount info.inputbuf.writeAvailable
          info.outputbuf.readAvailable info.sync).1 < frameCount
      then 1 else 0 := by
  rw [processcb_trace]
  split_ifs <;> simp [List.count_append, List.count_cons]

/-- C8: writing any sequence of `n ≤ C` elements into an empty ring buffer
of capacity `C` and then reading `n` elements returns exactly that
sequence, in order. -/
theorem C8_roundtrip {α : Type} (C : Nat) (xs : List α)
    (h : xs.length ≤ C) :
    (((RingBuffer.empty C).write xs xs.length).1.read xs.length).2 = xs := by
  have h1 : min xs.length C = xs.length := Nat.min_eq_left h
  simp [RingBuffer.empty, RingBuffer.write, RingBuffer.read,
    RingBuffer.writeAvailable, RingBuffer.readAvailable, h1]

/-- C8, witness: the round trip at capacity 3 with the sequence
`[1, 2, 3]`. -/
theorem C8_roundtrip_witness :
    ([1, 2, 3] : List Nat).length ≤ 3 ∧
    (((RingBuffer.empty 3).write [1, 2, 3] ([1, 2, 3] : List Nat).length).1.read
      ([1, 2, 3] : List Nat).length).2 = [1, 2, 3] :=
  ⟨by decide, C8_roundtrip 3 [1, 2, 3] (by decide)⟩

/-- C6: with synchronization enabled, the capping step fixes both transfer
counts to `min (min frameCount inAvail) (min frameCount outAvail)`, a pure
function of the pre-invocation availabilities, and the callback's ring
transfers use exactly those counts. -/
theorem C6_sync_caps_counts {α : Type} (zero : α) (info : ShimInfo α)
    (input : List α) (frameCount : Nat) (output : List α)
    (h : info.sync = true) :
    shimCounts frameCount info.inputbuf.writeAvailable
        info.outputbuf.readAvailable info.sync =
      (min (min frameCount info.inputbuf.writeAvailable)
          (min frameCount info.outputbuf.readAvailable),
       min (min frameCount info.inputbuf.writeAvailable)
          (min frameCount info.outputbuf.readAvailable)) ∧
    Event.wroteInput (min (min frameCount info.inputbuf.writeAvailable)
        (min frameCount info.outputbuf.readAvailable)) ∈
      (pa_shim_processcb zero info input frameCount output).trace ∧
    Event.readOutput (min (min frameCount info.inputbuf.writeAvailable)
        (min frameCount info.outputbuf.readAvailable)) ∈
      (pa_shim_processcb zero info input frameCount output).trace := by
  have hc : shimCounts frameCount info.inputbuf.writeAvailable
      info.outputbuf.readAvailable info.sync =
      (min (min frameCount info.inputbuf.writeAvailable)
          (min frameCount info.outputbuf.readAvailable),
       min (min frameCount info.inputbuf.writeAvailable)
          (min frameCount info.outputbuf.readAvailable)) := by
    simp [shimCounts, h, Prod.ext_iff]
    omega
  refine ⟨hc, ?_, ?_⟩ <;>
  · rw [processcb_trace, hc]
    simp

/-- C6, witness: the synchronized state with input availability 5 and
output availability 3 at `frameCount = 4` caps both counts to 3. -/
theorem C6_sync_caps_counts_witness :
    syncSmall.sync = true ∧
    (shimCounts 4 syncSmall.inputbuf.writeAvailable
        syncSmall.outputbuf.readAvailable syncSmall.sync =
      (min (min 4 syncSmall.inputbuf.writeAvailable)
          (min 4 syncSmall.outputbuf.readAvailable),
       min (min 4 syncSmall.inputbuf.writeAvailable)
          (min 4 syncSmall.outputbuf.readAvailable)) ∧
     Event.wroteInput (min (min 4 syncSmall.inputbuf.writeAvailable)
        (min 4 syncSmall.outputbuf.readAvailable)) ∈
      (pa_shim_processcb 0 syncSmall [1, 2, 3, 4] 4 [9, 9, 9, 9]).trace ∧
     Event.readOutput (min (min 4 syncSmall.inputbuf.writeAvailable)
        (min 4 syncSmall.outputbuf.readAvailable)) ∈
      (pa_shim_processcb 0 syncSmall [1, 2, 3, 4] 4 [9, 9, 9, 9]).trace) :=
  ⟨rfl, C6_sync_caps_counts 0 syncSmall [1, 2, 3, 4] 4 [9, 9, 9, 9] rfl⟩

/-- C7: with a configured notify callback, every invocation begins with
the four events input-write, input-signal, output-read, output-signal, in
that order, and each of the two data signals occurs exactly once in the
whole invocation — also when the transfer counts are zero. -/
theorem C7_notify_each_once {α : Type} (zero : α) (info : ShimInfo α)
    (input : List α) (frameCount : Nat) (output : List α)
    (h : info.notifycb = true) :
    (pa_shim_processcb zero info input frameCount output).trace.take 4 =
      [Event.wroteInput (shimCounts frameCount info.inputbuf.writeAvailable
          info.outputbuf.readAvailable info.sync).1,
       Event.notifyInput,
       Event.readOutput (shimCounts frameCount info.inputbuf.writeAvailable
          info.outputbuf.readAvailable info.sync).2,
       Event.notifyOutput] ∧
    (pa_shim_processcb zero info input frameCount output).trace.count
        Event.notifyInput = 1 ∧
    (pa_shim_processcb zero info input frameCount output).trace.count
        Event.notifyOutput = 1 := by
  simp only [processcb_trace, h, eq_self_iff_true, if_true]
  refine ⟨?_, ?_, ?_⟩
  · split_ifs <;> rfl
  · split_ifs <;> simp [List.count_append, List.count_cons]
  · split_ifs <;> simp [List.count_append, List.count_cons]

/-- C7, witness: the zero-transfer state (full input buffer, empty output
buffer) still produces both data signals, exactly once each. -/
theorem C7_notify_each_once_witness :
    zeroXferScenario.notifycb = true ∧
    ((pa_shim_processcb 0 zeroXferScenario [1, 1, 1, 1] 4
        [9, 9, 9, 9]).trace.take 4 =
      [Event.wroteInput (shimCounts 4 zeroXferScenario.inputbuf.writeAvailable
          zeroXferScenario.outputbuf.readAvailable zeroXferScenario.sync).1,
       Event.notifyInput,
       Event.readOutput (shimCounts 4 zeroXferScenario.inputbuf.writeAvailable
          zeroXferScenario.outputbuf.readAvailable zeroXferScenario.sync).2,
       Event.notifyOutput] ∧
     (pa_shim_processcb 0 zeroXferScenario [1, 1, 1, 1] 4
        [9, 9, 9, 9]).trace.count Event.notifyInput = 1 ∧
     (pa_shim_processcb 0 zeroXferScenario [1, 1, 1, 1] 4
        [9, 9, 9, 9]).trace.count Event.notifyOutput = 1) :=
  ⟨rfl, C7_notify_each_once 0 zeroXferScenario [1, 1, 1, 1] 4 [9, 9, 9, 9] rfl⟩

/-- C1, counterexample: in the synchronized-transfer scenario (input
write-availability 100, output read-availability 50, sync on,
`frameCount = 200`) the counts do resolve to 50 and 50, but the error
channel, empty before the call, holds an `Overflow` and an `Underflow`
record afterwards — errors are reported, refuting the claim that none is. -/
theorem C1_counterexample :
    syncScenario.inputbuf.writeAvailable = 100 ∧
    syncScenario.outputbuf.readAvailable = 50 ∧
    syncScenario.sync = true ∧
    syncScenario.errorbuf.data = [] ∧
    shimCounts 200 syncScenario.inputbuf.writeAvailable
        syncScenario.outputbuf.readAvailable syncScenario.sync = (50, 50) ∧
    (pa_shim_processcb 0 syncScenario (List.replicate 200 1) 200
        (List.replicate 200 9)).info.errorbuf.data =
      [ErrMsg.overflow, ErrMsg.underflow] := by
  decide

/-- C1, amended: in the synchronized-transfer scenario both counts resolve
to 50, and because 50 < 200 the invocation reports both an `Overflow` and
an `Underflow` record to the ErrorChannel (given at least 3 slots of
headroom there). -/
theorem C1_sync_scenario {α : Type} (zero : α) (info : ShimInfo α)
    (input output : List α)
    (hin : info.inputbuf.writeAvailable = 100)
    (hout : info.outputbuf.readAvailable = 50)
    (hsync : info.sync = true)
    (herr : 3 ≤ info.errorbuf.writeAvailable) :
    shimCounts 200 info.inputbuf.writeAvailable
        info.outputbuf.readAvailable info.sync = (50, 50) ∧
    (pa_shim_processcb zero info input 200 output).info.errorbuf.data =
      info.errorbuf.data ++ [ErrMsg.overflow, ErrMsg.underflow] := by
  have hc : shimCounts 200 info.inputbuf.writeAvailable
      info.outputbuf.readAvailable info.sync = (50, 50) := by
    rw [hin, hout, hsync]
    decide
  refine ⟨hc, ?_⟩
  rw [processcb_errorbuf]
  simp only [hc]
  norm_num
  rw [senderr_senderr_errorbuf_data info ErrMsg.overflow ErrMsg.underflow herr]

/-- C1, amended, witness: the concrete synchronized-transfer state. -/
theorem C1_sync_scenario_witness :
    syncScenario.inputbuf.writeAvailable = 100 ∧
    syncScenario.outputbuf.readAvailable = 50 ∧
    syncScenario.sync = true ∧
    3 ≤ syncScenario.errorbuf.writeAvailable ∧
    (shimCounts 200 syncScenario.inputbuf.writeAvailable
        syncScenario.outputbuf.readAvailable syncScenario.sync = (50, 50) ∧
     (pa_shim_processcb 0 syncScenario (List.replicate 200 1) 200
        (List.replicate 200 9)).info.errorbuf.data =
      syncScenario.errorbuf.data ++ [ErrMsg.overflow, ErrMsg.underflow]) :=
  ⟨by decide, by decide, rfl, by decide,
    C1_sync_scenario 0 syncScenario (List.replicate 200 1)
      (List.replicate 200 9) (by decide) (by decide) rfl (by decide)⟩

set_option maxRecDepth 8192 in
/-- C3: with the output ring buffer empty and `frameCount = 256` (and at
least 3 slots of headroom in the error channel), the read transfers 0
elements, all 256 frames of the output slot are zero-filled, and exactly
one `Underflow` record is enqueued. -/
theorem C3_underflow_scenario {α : Type} (zero : α) (info : ShimInfo α)
    (input output : List α)
    (hout : info.outputbuf.data = [])
    (herr : 3 ≤ info.errorbuf.writeAvailable) :
    Event.readOutput 0 ∈ (pa_shim_processcb zero info input 256 output).trace ∧
    (pa_shim_processcb zero info input 256 output).output.take 256 =
      List.replicate 256 zero ∧
    (pa_shim_processcb zero info input 256 output).info.errorbuf.data.count
        ErrMsg.underflow =
      info.errorbuf.data.count ErrMsg.underflow + 1 := by
  have hoa : info.outputbuf.readAvailable = 0 := by
    simp [RingBuffer.readAvailable, hout]
  have hnr : (shimCounts 256 info.inputbuf.writeAvailable
      info.outputbuf.readAvailable info.sync).2 = 0 := by
    rw [hoa]
    unfold shimCounts
    rcases info.sync <;> simp
  refine ⟨?_, ?_, ?_⟩
  · rw [processcb_trace]
    simp [hnr]
  · simp only [pa_shim_processcb, hnr]
    simp [RingBuffer.read, List.take_append_eq_append_take,
      List.take_replicate]
  · rw [processcb_errorbuf]
    simp only [hnr]
    norm_num
    by_cases hnw : (shimCounts 256 info.inputbuf.writeAvailable
        info.outputbuf.readAvailable info.sync).1 < 256
    · rw [if_pos hnw,
        senderr_senderr_errorbuf_data info ErrMsg.overflow ErrMsg.underflow herr]
      simp [List.count_append]
    · rw [if_neg hnw,
        senderr_errorbuf_data_of_le info ErrMsg.underflow (by omega)]
      simp [List.count_append]

/-- C3, witness: the concrete underflow-scenario state. -/
theorem C3_underflow_scenario_witness :
    underflowScenario.outputbuf.data = [] ∧
    3 ≤ underflowScenario.errorbuf.writeAvailable ∧
    (Event.readOutput 0 ∈ (pa_shim_processcb (0 : Nat) underflowScenario
        (List.replicate 256 5) 256 (List.replicate 256 9)).trace ∧
     (pa_shim_processcb (0 : Nat) underflowScenario (List.replicate 256 5)
        256 (List.replicate 256 9)).output.take 256 =
      List.replicate 256 0 ∧
     (pa_shim_processcb (0 : Nat) underflowScenario (List.replicate 256 5)
        256 (List.replicate 256 9)).info.errorbuf.data.count
        ErrMsg.underflow =
      underflowScenario.errorbuf.data.count ErrMsg.underflow + 1) :=
  ⟨rfl, by decide,
    C3_underflow_scenario 0 underflowScenario (List.replicate 256 5)
      (List.replicate 256 9) rfl (by decide)⟩

/-- C10: with a NULL notify callback the invocation performs exactly the
same ring-buffer transfers, error enqueues and silence filling as with a
configured bridge, never calls through the null pointer, and differs only
in dropping the three signals; likewise for `senderr` alone. -/
theorem C10_null_notify_skips_only_signals {α : Type} (zero : α)
    (info : ShimInfo α) (input : List α) (frameCount : Nat)
    (output : List α) :
    (runWith false zero info input frameCount output).info.inputbuf =
      (runWith true zero info input frameCount output).info.inputbuf ∧
    (runWith false zero info input frameCount output).info.outputbuf =
      (runWith true zero info input frameCount output).info.outputbuf ∧
    (runWith false zero info input frameCount output).info.errorbuf =
      (runWith true zero info input frameCount output).info.errorbuf ∧
    (runWith false zero info input frameCount output).output =
      (runWith true zero info input frameCount output).output ∧
    (runWith false zero info input frameCount output).ret =
      (runWith true zero info input frameCount output).ret ∧
    (runWith false zero info input frameCount output).trace =
      (runWith true zero info input frameCount output).trace.filter
        (fun e => ! e.isNotify) ∧
    (runWith false zero info input frameCount output).trace.filter
        (fun e => e.isNotify) = [] ∧
    ∀ m : ErrMsg,
      (senderr { info with notifycb := false } m).1.errorbuf =
        (senderr { info with notifycb := true } m).1.errorbuf := by
  refine ⟨?_, ?_, ?_, rfl, rfl, ?_, ?_, fun m => rfl⟩
  · rw [runWith, runWith, processcb_inputbuf, processcb_inputbuf]
  · rw [runWith, runWith, processcb_outputbuf, processcb_outputbuf]
  · rw [runWith, runWith, processcb_errorbuf, processcb_errorbuf]
    dsimp only
    split_ifs <;> rfl
  · rw [runWith, runWith, processcb_trace, processcb_trace]
    dsimp only
    split_ifs <;> simp_all [Event.isNotify]
  · rw [runWith, processcb_trace]
    dsimp only
    split_ifs <;> simp_all [Event.isNotify]

end PaShim
